import Mathlib

/-!
# Verification of the slackauth service (`auth.go`)

A shallow embedding of the slackauth package: configuration validation
(`New` / `readTemplate`), the OAuth HTTP callback handler (`ServeHTTP`),
the observer registration (`OnAuth`), the event-dispatch goroutine started
by `Run` (modelled as `runLoop`), and a labelled transition system for the
producers/dispatcher interaction over the capacity-1 channel `auths`.

External collaborators (the file system, the `html/template` parser, the
slack provider call) are treated as parameters of the embedding, exactly at
the interface boundary the code uses them through:

* `ioutil.ReadFile` becomes `fs : String → Option String` (`none` = read
  error, producing the `os.PathError` that names the file);
* `template.New("").Parse` becomes `parse : String → Except GoErr Template`;
* `slack.GetOAuthResponse` (through the `slackAPI` interface) becomes a
  function returning a `(*slack.OAuthResponse, error)` pair, i.e.
  `Option OAuthResponse × Option String`.

Side effects of `New` (file reads; provider calls would also be effects)
are made explicit as an `Effect` list so that claims about *which* I/O is
attempted, and in which order, are statable.
-/

namespace Slackauth

/-- The `slack.OAuthResponse` value, kept to the field the code and its
tests observe (`AccessToken`); the code treats it opaquely otherwise. -/
structure OAuthResponse where
  accessToken : String
  deriving DecidableEq, Repr

/-- The Go channel `auths` carries `*slack.OAuthResponse` pointers, which
may in principle be nil: an event is an optional response. -/
abbrev AuthEvent := Option OAuthResponse

/-- A compiled `html/template` template. `Execute` writes output bytes and
may additionally return an error (output already written stays written, so
the model returns both the bytes written and the optional error). -/
structure Template where
  exec : AuthEvent → String × Option String

/-- Go `error` values produced by the code paths of `auth.go`. -/
inductive GoErr
  /-- `errors.New` in `New` for the missing-field check. -/
  | configErr (msg : String)
  /-- `os.PathError` from `ioutil.ReadFile`; its message names the file. -/
  | pathErr (op : String) (path : String)
  /-- a parse error from `template.Parse`. -/
  | parseErr (msg : String)
  deriving DecidableEq, Repr

/-- Side effects observable during `New`. -/
inductive Effect
  /-- a `ioutil.ReadFile` call on the given path. -/
  | fileRead (path : String)
  /-- a provider/network call (`slack.GetOAuthResponse`); `New` never emits
  this, which is what claim C8 checks. -/
  | providerCall (id : String) (secret : String) (code : String)
  deriving DecidableEq, Repr

/-- The external collaborators `auth.go` depends on, at their interface
boundary: the file system, the template parser and the real provider call
wrapped by `slackAPIWrapper`. -/
structure Env where
  fs : String → Option String
  parse : String → Except GoErr Template
  getOAuthResponse : String → String → String → Bool → Option OAuthResponse × Option String

/-- `Options` of `auth.go`. -/
structure Options where
  Addr : String
  ClientID : String
  ClientSecret : String
  SuccessTpl : String
  ErrorTpl : String
  Debug : Bool
  CertFile : String
  KeyFile : String

/-- An observer callback `func(*slack.OAuthResponse)`. Go functions do not
return values here but may panic; `some msg` models a panic escaping the
call, `none` a normal return. -/
abbrev Callback := AuthEvent → Option String

/-- The `slackAuth` struct. The channel `auths` is represented by its
capacity (`make(chan *slack.OAuthResponse, 1)`), its content living in the
transition-system state; `callback` is the observer slot. -/
structure SlackAuth where
  clientID : String
  clientSecret : String
  addr : String
  certFile : String
  keyFile : String
  successTpl : Template
  errorTpl : Template
  debug : Bool
  authsCap : Nat
  callback : Option Callback
  api : String → String → String → Bool → Option OAuthResponse × Option String

/-- `readTemplate`: `ioutil.ReadFile` then `template.New("").Parse`,
returning alongside the result the file-read effect it performs. -/
def readTemplate (env : Env) (file : String) : Except GoErr Template × List Effect :=
  match env.fs file with
  | none => (.error (.pathErr "open" file), [.fileRead file])
  | some bytes => (env.parse bytes, [.fileRead file])

/-- `New`: validates the options, loads both templates (success first,
short-circuiting), and builds the service. Returns the result together
with the list of side effects performed, in order. -/
def New (env : Env) (opts : Options) : Except GoErr SlackAuth × List Effect :=
  if opts.Addr = "" ∨ opts.ClientID = "" ∨ opts.ClientSecret = "" then
    (.error (.configErr "slackauth: addr, client id and client secret can not be empty"), [])
  else
    match readTemplate env opts.SuccessTpl with
    | (.error e, eff₁) => (.error e, eff₁)
    | (.ok successTpl, eff₁) =>
      match readTemplate env opts.ErrorTpl with
      | (.error e, eff₂) => (.error e, eff₁ ++ eff₂)
      | (.ok errorTpl, eff₂) =>
        (.ok { clientID := opts.ClientID
               clientSecret := opts.ClientSecret
               addr := opts.Addr
               certFile := opts.CertFile
               keyFile := opts.KeyFile
               successTpl := successTpl
               errorTpl := errorTpl
               debug := opts.Debug
               authsCap := 1
               callback := none
               api := env.getOAuthResponse },
         eff₁ ++ eff₂)

/-- `OnAuth` stores the handler in the observer slot. -/
def OnAuth (s : SlackAuth) (fn : Callback) : SlackAuth :=
  { s with callback := some fn }

/-- An inbound HTTP request, seen through the only accessor the handler
uses: `r.FormValue` (which yields `""` when the parameter is absent). -/
structure Request where
  formValue : String → String

/-- What the handler leaves behind on the `http.ResponseWriter` and the
channel: the response status, the body written, and the events sent on
`auths`. The handler never calls `WriteHeader` or `http.Error`, so by
`net/http` semantics the status is the implicit 200. -/
structure HttpResult where
  status : Nat
  body : String
  enqueued : List AuthEvent

/-- `ServeHTTP`: extract `code`, exchange it, render the error template on
failure (no enqueue), or the success template on success followed by the
channel send `s.auths <- resp` — unconditionally, even if rendering
failed. Template-execution errors are only logged. The receiver is
returned as well: the method mutates no field of `s`. -/
def ServeHTTP (s : SlackAuth) (r : Request) : HttpResult × SlackAuth :=
  let code := r.formValue "code"
  match s.api s.clientID s.clientSecret code s.debug with
  | (resp, some _err) =>
      let out := (s.errorTpl.exec resp).1
      ({ status := 200, body := out, enqueued := [] }, s)
  | (resp, none) =>
      let out := (s.successTpl.exec resp).1
      ({ status := 200, body := out, enqueued := [resp] }, s)

/-! ## The dispatch goroutine of `Run`

`Run` starts `go func() { for auth := range s.auths { ... } }`.  The loop
body reads `s.callback` afresh at every iteration, so a concurrent
`OnAuth` swap is seen by later deliveries; this is modelled by a function
`slot : Nat → Option Callback` giving the value of the observer slot read
at the i-th iteration.  There is no `recover()` anywhere in `auth.go`, so
a panic escaping `s.callback(auth)` unwinds the goroutine: the embedding
propagates it as a `LoopResult.panicked` outcome carrying the events the
loop never got to process. -/

/-- One log entry of the dispatch loop: either the event was handed to the
callback that was registered at that moment, or it was dropped with the
`log15.Warn` message. -/
inductive LoopLog
  | delivered (cb : Callback) (e : AuthEvent)
  | droppedWarn (e : AuthEvent)

/-- Outcome of the dispatch loop on a stream of received events: the
channel was closed and the loop ended normally, or a callback panicked and
the panic unwound the goroutine, abandoning the remaining events. -/
inductive LoopResult
  | closed (log : List LoopLog)
  | panicked (log : List LoopLog) (msg : String) (remaining : List AuthEvent)

/-- The body of the goroutine started by `Run`: iterate over the events
received from `auths` (the list argument; the channel closing ends the
list), reading the observer slot at each iteration. -/
def runLoop (slot : Nat → Option Callback) : Nat → List AuthEvent → LoopResult
  | _, [] => .closed []
  | i, e :: es =>
    match slot i with
    | none =>
      match runLoop slot (i + 1) es with
      | .closed log => .closed (.droppedWarn e :: log)
      | .panicked log m r => .panicked (.droppedWarn e :: log) m r
    | some cb =>
      match cb e with
      | some msg => .panicked [] msg es
      | none =>
        match runLoop slot (i + 1) es with
        | .closed log => .closed (.delivered cb e :: log)
        | .panicked log m r => .panicked (.delivered cb e :: log) m r

/-- Modelled from the spec: the per-delivery behavior §4.3 describes —
each event goes to whichever callback is registered at its delivery
moment, and is dropped with a warning when none is. Used to compare
`runLoop` against the specified dispatch policy. -/
def loopSpec (slot : Nat → Option Callback) : Nat → List AuthEvent → List LoopLog
  | _, [] => []
  | i, e :: es =>
    (match slot i with
     | none => LoopLog.droppedWarn e
     | some cb => LoopLog.delivered cb e) :: loopSpec slot (i + 1) es

/-- `runLoop` never panics when every callback the slot can yield returns
normally, and then its log is exactly the specified per-delivery policy. -/
theorem runLoop_closed_of_noPanic (slot : Nat → Option Callback)
    (hnp : ∀ j cb, slot j = some cb → ∀ e, cb e = none) :
    ∀ (i : Nat) (es : List AuthEvent),
      runLoop slot i es = .closed (loopSpec slot i es) := by
  intro i es
  induction es generalizing i with
  | nil => rfl
  | cons e es ih =>
    simp only [runLoop, loopSpec]
    cases hslot : slot i with
    | none => simp [runLoop, ih (i + 1)]
    | some cb => simp [runLoop, hnp i cb hslot e, ih (i + 1)]

/-! ## Producers, the capacity-1 channel, and the dispatcher

A labelled transition system for M concurrent request handlers that have
completed a successful exchange and race to perform `s.auths <- resp`
against the single dispatch goroutine.  `pending` holds the responses not
yet sent (any of them may win the race, hence the arbitrary index in
`enq`); `queue` is the channel buffer, of capacity 1 as allocated by
`New`; `enqueued` is the ghost trace of sends in the order they occurred;
`delivered` is what the dispatcher has handed to the observer. -/

/-- Global state of the producers/channel/dispatcher system. -/
structure DispatchState where
  pending : List AuthEvent
  queue : List AuthEvent
  enqueued : List AuthEvent
  delivered : List AuthEvent
  deriving DecidableEq, Repr

/-- Initial state: M responses waiting to be sent, channel empty, nothing
delivered. -/
def DispatchState.init (es : List AuthEvent) : DispatchState :=
  ⟨es, [], [], []⟩

/-- Termination measure: each send and each receive strictly decreases it. -/
def DispatchState.measure (s : DispatchState) : Nat :=
  2 * s.pending.length + s.queue.length

/-- One step of the system: a producer's channel send (enabled only while
the buffer holds fewer elements than the capacity 1 — a send on a full
channel blocks), or the dispatcher receiving the oldest buffered event and
invoking the registered observer with it. -/
inductive DStep : DispatchState → DispatchState → Prop
  | enq (p q enq d : List AuthEvent) (i : Fin p.length) (hq : q.length < 1) :
      DStep ⟨p, q, enq, d⟩ ⟨p.eraseIdx i.1, q ++ [p.get i], enq ++ [p.get i], d⟩
  | disp (p q enq d : List AuthEvent) (e : AuthEvent) :
      DStep ⟨p, e :: q, enq, d⟩ ⟨p, q, enq, d ++ [e]⟩

/-- Reachability: finitely many `DStep`s. -/
inductive DReach : DispatchState → DispatchState → Prop
  | refl (s : DispatchState) : DReach s s
  | tail {s t u : DispatchState} : DReach s t → DStep t u → DReach s u

/-- Removing an element at an index and putting it back in front is a
permutation of the original list. -/
theorem get_cons_eraseIdx_perm {α : Type} :
    ∀ (l : List α) (i : Fin l.length), (l.get i :: l.eraseIdx i.1).Perm l := by
  intro l
  induction l with
  | nil => intro i; exact absurd i.2 (by simp)
  | cons a l ih =>
    intro i
    match i with
    | ⟨0, _⟩ => exact List.Perm.refl _
    | ⟨j + 1, hj⟩ =>
      have hj' : j < l.length := by simpa using hj
      have h₁ : ((a :: l).get ⟨j + 1, hj⟩ :: (a :: l).eraseIdx (j + 1))
          = l.get ⟨j, hj'⟩ :: a :: l.eraseIdx j := rfl
      rw [h₁]
      exact (List.Perm.swap a (l.get ⟨j, hj'⟩) (l.eraseIdx j)).trans ((ih ⟨j, hj'⟩).cons a)

/-- The system invariant: the ghost trace of sends is exactly the
delivered prefix followed by the channel content, and no event is ever
created or lost (pending + trace is a permutation of the initial M). -/
def DInv (es : List AuthEvent) (s : DispatchState) : Prop :=
  s.enqueued = s.delivered ++ s.queue ∧ (s.pending ++ s.enqueued).Perm es

/-- Each step preserves the invariant. -/
theorem DInv_step {es : List AuthEvent} {s t : DispatchState}
    (hinv : DInv es s) (hst : DStep s t) : DInv es t := by
  obtain ⟨h₁, h₂⟩ := hinv
  cases hst with
  | enq p q enq d i hq =>
    refine ⟨by simp_all, ?_⟩
    simp only at h₂ ⊢
    have hx : (p.get i :: p.eraseIdx i.1).Perm p := get_cons_eraseIdx_perm p i
    have h₅ : (p.eraseIdx i.1 ++ (enq ++ [p.get i])).Perm
        ((p.eraseIdx i.1 ++ [p.get i]) ++ enq) := by
      rw [List.append_assoc]
      exact List.Perm.append_left _ List.perm_append_comm
    have h₆ : ((p.eraseIdx i.1 ++ [p.get i]) ++ enq).Perm (p ++ enq) :=
      (List.perm_append_comm.trans hx).append_right enq
    exact (h₅.trans h₆).trans h₂
  | disp p q enq d e =>
    refine ⟨?_, h₂⟩
    simp only at h₁ ⊢
    rw [h₁, List.append_assoc]
    rfl

/-- The invariant holds in every reachable state. -/
theorem DInv_reach {es : List AuthEvent} {s : DispatchState}
    (h : DReach (DispatchState.init es) s) : DInv es s := by
  induction h with
  | refl => exact ⟨rfl, by simp [DispatchState.init]⟩
  | tail _ hst ih => exact DInv_step ih hst

/-- Every step strictly decreases the measure, so no execution runs
forever: both the producers and the queue eventually drain. -/
theorem DStep_measure {s t : DispatchState} (h : DStep s t) :
    t.measure < s.measure := by
  cases h with
  | enq p q enq d i hq =>
    have hi := List.length_eraseIdx_add_one i.2
    simp only [DispatchState.measure, List.length_append, List.length_cons, List.length_nil]
    omega
  | disp p q enq d e =>
    simp only [DispatchState.measure, List.length_cons]
    omega

/-- Progress: while anything is pending or buffered, some step is enabled
(a send fits whenever the buffer is empty, and the dispatcher can always
receive a buffered event), so the system never deadlocks. -/
theorem DStep_progress (s : DispatchState) (h : s.pending ≠ [] ∨ s.queue ≠ []) :
    ∃ t, DStep s t := by
  obtain ⟨p, q, enq, d⟩ := s
  cases q with
  | cons e rest => exact ⟨_, DStep.disp p rest enq d e⟩
  | nil =>
    cases p with
    | cons x p₀ => exact ⟨_, DStep.enq (x :: p₀) [] enq d ⟨0, by simp⟩ (by simp)⟩
    | nil => simp at h

/-- `loopSpec` produces one log entry per received event. -/
theorem loopSpec_length (slot : Nat → Option Callback) :
    ∀ (i : Nat) (es : List AuthEvent), (loopSpec slot i es).length = es.length := by
  intro i es
  induction es generalizing i with
  | nil => rfl
  | cons e es ih => simp [loopSpec, ih]

/-- `readTemplate` always performs exactly one read, of its own file. -/
theorem readTemplate_eq (env : Env) (f : String) :
    readTemplate env f = ((readTemplate env f).1, [.fileRead f]) := by
  unfold readTemplate
  cases env.fs f <;> rfl

/-! ## Concrete fixtures

A small concrete environment mirroring the package's own test fixtures
(`slackAPIMock` fails exactly on the code `"invalid"`; template files on
disk), used to instantiate the theorems below at closed inputs. -/

/-- A template whose execution writes the given text and never errors. -/
def tplOf (txt : String) : Template :=
  ⟨fun _ => (txt, none)⟩

/-- A concrete file system: two good template files and one whose content
fails to parse. -/
def fsW : String → Option String := fun p =>
  if p = "success.tpl" then some "SOK"
  else if p = "error.tpl" then some "EOK"
  else if p = "bad.tpl" then some "BAD"
  else none

/-- A concrete parser: the content `"BAD"` is malformed, everything else
compiles to a template printing itself. -/
def parseW : String → Except GoErr Template := fun txt =>
  if txt = "BAD" then .error (.parseErr "template: :1: unexpected token")
  else .ok (tplOf txt)

/-- The provider double of the package's own tests: the code `"invalid"`
fails, every other code yields the fixed token `"foo"`. -/
def apiW : String → String → String → Bool → Option OAuthResponse × Option String :=
  fun _ _ code _ =>
    if code = "invalid" then (none, some "invalid code") else (some ⟨"foo"⟩, none)

/-- The concrete environment assembled from the pieces above. -/
def envW : Env := ⟨fsW, parseW, apiW⟩

/-- A fully valid options value. -/
def optsW : Options :=
  { Addr := ":8080", ClientID := "foo", ClientSecret := "bar"
    SuccessTpl := "success.tpl", ErrorTpl := "error.tpl"
    Debug := false, CertFile := "", KeyFile := "" }

/-! ## The claims -/

/-- C1: for every `Options` value in which the address, the client id, or
the client secret is empty, `New` returns the configuration error and no
service (the `error` branch of the `Except` carries no `SlackAuth`), and
its effect list is empty: the check happens before any template I/O. -/
theorem C1_empty_config_rejected (env : Env) (opts : Options)
    (h : opts.Addr = "" ∨ opts.ClientID = "" ∨ opts.ClientSecret = "") :
    New env opts =
      (.error (.configErr "slackauth: addr, client id and client secret can not be empty"),
       []) := by
  unfold New
  rw [if_pos h]

/-- C1 witness: the empty-address options from the package's own test
table are rejected with no file read. -/
theorem C1_empty_config_rejected_witness :
    New envW { Addr := "", ClientID := "a", ClientSecret := "b"
               SuccessTpl := "success.tpl", ErrorTpl := "error.tpl"
               Debug := false, CertFile := "", KeyFile := "" } =
      (.error (.configErr "slackauth: addr, client id and client secret can not be empty"),
       []) :=
  C1_empty_config_rejected envW _ (Or.inl rfl)

/-- C2: with the three required fields non-empty, `New` short-circuits on
the success template — if loading or parsing it fails, the returned error
is that template's own error and the failure template is never read; if
the success template is fine but the failure template fails, the returned
error is the failure template's own error; if both are fine, a service is
returned with no error. -/
theorem C2_template_shortcircuit (env : Env) (opts : Options)
    (ha : opts.Addr ≠ "") (hc : opts.ClientID ≠ "") (hs : opts.ClientSecret ≠ "") :
    (∀ e, (readTemplate env opts.SuccessTpl).1 = .error e →
       New env opts = (.error e, [.fileRead opts.SuccessTpl])) ∧
    (∀ t e, (readTemplate env opts.SuccessTpl).1 = .ok t →
       (readTemplate env opts.ErrorTpl).1 = .error e →
       New env opts = (.error e, [.fileRead opts.SuccessTpl, .fileRead opts.ErrorTpl])) ∧
    (∀ t u, (readTemplate env opts.SuccessTpl).1 = .ok t →
       (readTemplate env opts.ErrorTpl).1 = .ok u →
       ∃ svc, New env opts =
         (.ok svc, [.fileRead opts.SuccessTpl, .fileRead opts.ErrorTpl])) := by
  have hne : ¬(opts.Addr = "" ∨ opts.ClientID = "" ∨ opts.ClientSecret = "") := by
    push_neg
    exact ⟨ha, hc, hs⟩
  refine ⟨?_, ?_, ?_⟩
  · intro e h₁
    unfold New
    rw [if_neg hne, readTemplate_eq env opts.SuccessTpl, h₁]
  · intro t e h₁ h₂
    unfold New
    rw [if_neg hne, readTemplate_eq env opts.SuccessTpl, h₁,
      readTemplate_eq env opts.ErrorTpl, h₂]
    rfl
  · intro t u h₁ h₂
    unfold New
    rw [if_neg hne, readTemplate_eq env opts.SuccessTpl, h₁,
      readTemplate_eq env opts.ErrorTpl, h₂]
    exact ⟨_, rfl⟩

/-- C2 witness: the short-circuit theorem instantiated at the concrete
environment and a fully valid options value. -/
theorem C2_template_shortcircuit_witness :
    (∀ e, (readTemplate envW optsW.SuccessTpl).1 = .error e →
       New envW optsW = (.error e, [.fileRead optsW.SuccessTpl])) ∧
    (∀ t e, (readTemplate envW optsW.SuccessTpl).1 = .ok t →
       (readTemplate envW optsW.ErrorTpl).1 = .error e →
       New envW optsW = (.error e, [.fileRead optsW.SuccessTpl, .fileRead optsW.ErrorTpl])) ∧
    (∀ t u, (readTemplate envW optsW.SuccessTpl).1 = .ok t →
       (readTemplate envW optsW.ErrorTpl).1 = .ok u →
       ∃ svc, New envW optsW =
         (.ok svc, [.fileRead optsW.SuccessTpl, .fileRead optsW.ErrorTpl])) :=
  C2_template_shortcircuit envW optsW (by decide) (by decide) (by decide)

/-- A concrete service: the one `New` builds from the valid options and
the concrete environment. -/
def svcW : SlackAuth :=
  { clientID := "foo", clientSecret := "bar", addr := ":8080"
    certFile := "", keyFile := ""
    successTpl := tplOf "SOK", errorTpl := tplOf "EOK"
    debug := false, authsCap := 1, callback := none, api := apiW }

/-- A request carrying the given `code` parameter. -/
def reqOf (code : String) : Request :=
  ⟨fun k => if k = "code" then code else ""⟩

/-- C3: for every request, if the token exchange errors the handler writes
the failure-template rendering and sends nothing on `auths`; if it
succeeds the handler writes the success-template rendering of the token
response and sends exactly that response. -/
theorem C3_exchange_outcome (s : SlackAuth) (r : Request)
    (resp : AuthEvent) (err : Option String)
    (h : s.api s.clientID s.clientSecret (r.formValue "code") s.debug = (resp, err)) :
    (err ≠ none →
      (ServeHTTP s r).1.body = (s.errorTpl.exec resp).1 ∧
      (ServeHTTP s r).1.enqueued = []) ∧
    (err = none →
      (ServeHTTP s r).1.body = (s.successTpl.exec resp).1 ∧
      (ServeHTTP s r).1.enqueued = [resp]) := by
  cases err with
  | none =>
    refine ⟨fun hcontra => absurd rfl hcontra, fun _ => ?_⟩
    simp [ServeHTTP, h]
  | some e =>
    refine ⟨fun _ => ?_, fun hcontra => by simp at hcontra⟩
    simp [ServeHTTP, h]

/-- C3 witness: on the failing code `"invalid"` the error page is written
and nothing is sent; instantiated at the concrete service. -/
theorem C3_exchange_outcome_witness :
    ((some "invalid code" : Option String) ≠ none →
      (ServeHTTP svcW (reqOf "invalid")).1.body = (svcW.errorTpl.exec none).1 ∧
      (ServeHTTP svcW (reqOf "invalid")).1.enqueued = []) ∧
    ((some "invalid code" : Option String) = none →
      (ServeHTTP svcW (reqOf "invalid")).1.body = (svcW.successTpl.exec none).1 ∧
      (ServeHTTP svcW (reqOf "invalid")).1.enqueued = [none]) :=
  C3_exchange_outcome svcW (reqOf "invalid") none (some "invalid code") rfl

/-- C7: the handler never calls `WriteHeader` or `http.Error`, so every
response carries the implicit status 200, on success and on failure
alike, and the body is the rendering of one of the two templates on the
exchange result. -/
theorem C7_status_always_200 (s : SlackAuth) (r : Request) :
    (ServeHTTP s r).1.status = 200 ∧
    ((ServeHTTP s r).1.body =
        (s.errorTpl.exec (s.api s.clientID s.clientSecret (r.formValue "code") s.debug).1).1 ∨
     (ServeHTTP s r).1.body =
        (s.successTpl.exec (s.api s.clientID s.clientSecret (r.formValue "code") s.debug).1).1) := by
  rcases h : s.api s.clientID s.clientSecret (r.formValue "code") s.debug with ⟨resp, err⟩
  cases err with
  | none => exact ⟨by simp [ServeHTTP, h], Or.inr (by simp [ServeHTTP, h])⟩
  | some e => exact ⟨by simp [ServeHTTP, h], Or.inl (by simp [ServeHTTP, h])⟩

/-- C9: template execution is a pure function of the template and the
token response: the handler leaves every field of the service unchanged,
renders the success template on the exchanged response, and handling the
same request again through the returned service writes the identical
body. -/
theorem C9_render_deterministic (s : SlackAuth) (r : Request) (resp : AuthEvent)
    (h : s.api s.clientID s.clientSecret (r.formValue "code") s.debug = (resp, none)) :
    (ServeHTTP s r).2 = s ∧
    (ServeHTTP s r).1.body = (s.successTpl.exec resp).1 ∧
    (ServeHTTP (ServeHTTP s r).2 r).1.body = (ServeHTTP s r).1.body := by
  have h₂ : (ServeHTTP s r).2 = s := by
    rcases hapi : s.api s.clientID s.clientSecret (r.formValue "code") s.debug with ⟨x, e⟩
    cases e <;> simp [ServeHTTP, hapi]
  refine ⟨h₂, by simp [ServeHTTP, h], by rw [h₂]⟩

/-- C9 witness: two successive handlings of the same successful request on
the concrete service write the same body. -/
theorem C9_render_deterministic_witness :
    (ServeHTTP svcW (reqOf "fooo")).2 = svcW ∧
    (ServeHTTP svcW (reqOf "fooo")).1.body = (svcW.successTpl.exec (some ⟨"foo"⟩)).1 ∧
    (ServeHTTP (ServeHTTP svcW (reqOf "fooo")).2 (reqOf "fooo")).1.body =
      (ServeHTTP svcW (reqOf "fooo")).1.body :=
  C9_render_deterministic svcW (reqOf "fooo") (some ⟨"foo"⟩) rfl

/-- C10: a failing render of the success template does not affect the
channel send: when the exchange succeeds, the response is sent on `auths`
even though `Execute` returned an error (which is only logged). -/
theorem C10_enqueue_despite_render_error (s : SlackAuth) (r : Request)
    (resp : AuthEvent) (msg : String)
    (hapi : s.api s.clientID s.clientSecret (r.formValue "code") s.debug = (resp, none))
    (hrender : (s.successTpl.exec resp).2 = some msg) :
    (ServeHTTP s r).1.enqueued = [resp] := by
  simp [ServeHTTP, hapi]

/-- A service whose success template always fails during execution after
writing a partial body. -/
def svcBadRender : SlackAuth :=
  { svcW with successTpl := ⟨fun _ => ("partial", some "render boom")⟩ }

/-- C10 witness: the send happens on the concrete service whose success
template errors on every execution. -/
theorem C10_enqueue_despite_render_error_witness :
    (ServeHTTP svcBadRender (reqOf "fooo")).1.enqueued = [some ⟨"foo"⟩] :=
  C10_enqueue_despite_render_error svcBadRender (reqOf "fooo") (some ⟨"foo"⟩)
    "render boom" rfl rfl

/-- C8: whenever `New` succeeds, the returned service has channel capacity
exactly 1, an unset observer slot, the api wired to the real provider
call, and the effects performed are exactly the two template file reads —
in particular no provider call. -/
theorem C8_service_shape (env : Env) (opts : Options) (svc : SlackAuth)
    (effs : List Effect) (h : New env opts = (.ok svc, effs)) :
    svc.authsCap = 1 ∧ svc.callback = none ∧ svc.api = env.getOAuthResponse ∧
    effs = [.fileRead opts.SuccessTpl, .fileRead opts.ErrorTpl] := by
  by_cases hcfg : opts.Addr = "" ∨ opts.ClientID = "" ∨ opts.ClientSecret = ""
  · unfold New at h
    rw [if_pos hcfg] at h
    exact absurd h (by simp)
  · unfold New at h
    rw [if_neg hcfg, readTemplate_eq env opts.SuccessTpl,
      readTemplate_eq env opts.ErrorTpl] at h
    cases h₁ : (readTemplate env opts.SuccessTpl).1 with
    | error e =>
      rw [h₁] at h
      exact absurd h (by simp)
    | ok t =>
      rw [h₁] at h
      cases h₂ : (readTemplate env opts.ErrorTpl).1 with
      | error e =>
        rw [h₂] at h
        exact absurd h (by simp)
      | ok u =>
        rw [h₂] at h
        simp only [Prod.mk.injEq, Except.ok.injEq] at h
        obtain ⟨hsvc, heffs⟩ := h
        subst hsvc
        exact ⟨rfl, rfl, rfl, heffs.symm⟩

/-- C8 witness: the service `New` builds from the concrete environment and
valid options has capacity 1, no observer, the wired api, and exactly the
two reads as effects. -/
theorem C8_service_shape_witness :
    svcW.authsCap = 1 ∧ svcW.callback = none ∧ svcW.api = envW.getOAuthResponse ∧
    ([Effect.fileRead "success.tpl", Effect.fileRead "error.tpl"] : List Effect) =
      [.fileRead optsW.SuccessTpl, .fileRead optsW.ErrorTpl] :=
  C8_service_shape envW optsW svcW [.fileRead "success.tpl", .fileRead "error.tpl"] rfl

/-- C4: for every event received by the dispatch loop, the loop consults
the observer slot as read at that delivery moment — `loopSpec` is by
definition the delivery-time policy (hand the event to the callback the
slot holds now, or drop it with a warning when the slot is empty) — and
the loop continues to the next event in either case, producing one log
entry per event. -/
theorem C4_delivery_time_observer (slot : Nat → Option Callback) (i : Nat)
    (es : List AuthEvent)
    (hnp : ∀ j cb, slot j = some cb → ∀ e, cb e = none) :
    runLoop slot i es = .closed (loopSpec slot i es) ∧
    (loopSpec slot i es).length = es.length :=
  ⟨runLoop_closed_of_noPanic slot hnp i es, loopSpec_length slot i es⟩

/-- An observer that returns normally on every event. -/
def cbOk : Callback := fun _ => none

/-- A slot history in which the observer is registered except at the
second delivery (index 1), as when `OnAuth` runs between deliveries. -/
def slotW : Nat → Option Callback := fun j =>
  if j = 1 then none else some cbOk

/-- C4 witness: three events against a slot that is empty exactly at the
second delivery — the loop closes with one log entry per event. -/
theorem C4_delivery_time_observer_witness :
    runLoop slotW 0 ([some ⟨"t1"⟩, none, some ⟨"t2"⟩] : List AuthEvent)
      = .closed (loopSpec slotW 0 ([some ⟨"t1"⟩, none, some ⟨"t2"⟩] : List AuthEvent)) ∧
    (loopSpec slotW 0 ([some ⟨"t1"⟩, none, some ⟨"t2"⟩] : List AuthEvent)).length
      = ([some ⟨"t1"⟩, none, some ⟨"t2"⟩] : List AuthEvent).length :=
  C4_delivery_time_observer slotW 0 _ (by
    intro j cb h e
    unfold slotW at h
    split at h
    · exact absurd h (by simp)
    · rw [← Option.some.inj h]
      rfl)

/-- An observer that panics on every invocation. -/
def panicCb : Callback := fun _ => some "observer panic"

/-- A slot history that always holds the panicking observer. -/
def slotPanic : Nat → Option Callback := fun _ => some panicCb

/-- C5 counterexample: `auth.go` installs no `recover()` in the goroutine
started by `Run`, so a panicking observer unwinds the dispatch loop at the
first delivery — the loop does *not* reach the second event and does not
terminate by queue closure, contradicting the claim that a callback panic
is contained. -/
theorem C5_panic_kills_loop_counterexample :
    runLoop slotPanic 0 ([some ⟨"t1"⟩, some ⟨"t2"⟩] : List AuthEvent)
      = .panicked [] "observer panic" [some ⟨"t2"⟩] ∧
    ∀ log, runLoop slotPanic 0 ([some ⟨"t1"⟩, some ⟨"t2"⟩] : List AuthEvent)
      ≠ .closed log := by
  refine ⟨rfl, fun log h => ?_⟩
  exact absurd h (by simp [runLoop, slotPanic, panicCb])

/-- C5 amended: provided no invocation of a registered observer panics,
the dispatch loop survives every delivery and drop, terminating only when
the channel closes, with one log entry per event; a panicking observer,
however, unwinds the goroutine (there is no `recover()` in `auth.go`),
abandoning the remaining events — and an unrecovered panic in any
goroutine terminates the Go process. -/
theorem C5_amended_loop_survival (slot : Nat → Option Callback) (i : Nat)
    (es : List AuthEvent)
    (hnp : ∀ j cb, slot j = some cb → ∀ e, cb e = none) :
    ∃ log, runLoop slot i es = .closed log ∧ log.length = es.length :=
  ⟨loopSpec slot i es, runLoop_closed_of_noPanic slot hnp i es,
    loopSpec_length slot i es⟩

/-- C5 amended witness: a non-panicking observer lets the loop close over
concrete events. -/
theorem C5_amended_loop_survival_witness :
    ∃ log, runLoop (fun _ => some cbOk) 3 ([none, some ⟨"t3"⟩] : List AuthEvent)
      = .closed log ∧ log.length = ([none, some ⟨"t3"⟩] : List AuthEvent).length :=
  C5_amended_loop_survival (fun _ => some cbOk) 3 _ (by
    intro j cb h e
    rw [← Option.some.inj h]
    rfl)

/-- C6: in every state reachable from M successful exchanges racing on the
capacity-1 channel: (progress) some step is enabled while anything is
undelivered, so no producer blocks forever and the system cannot
deadlock; (termination) every step strictly decreases the measure, so
every maximal execution ends with all events delivered; (FIFO) the
delivery log is always exactly the send-order trace minus the still
buffered suffix; (exactly once) once the producers and the buffer are
drained, the delivery log is a permutation of the M responses. -/
theorem C6_concurrent_delivery (es : List AuthEvent) (s : DispatchState)
    (h : DReach (DispatchState.init es) s) :
    ((s.pending ≠ [] ∨ s.queue ≠ []) → ∃ t, DStep s t) ∧
    (∀ t, DStep s t → t.measure < s.measure) ∧
    s.enqueued = s.delivered ++ s.queue ∧
    (s.pending = [] → s.queue = [] → s.delivered.Perm es) := by
  obtain ⟨hinv₁, hinv₂⟩ := DInv_reach h
  refine ⟨DStep_progress s, fun t hst => DStep_measure hst, hinv₁, fun hp hq => ?_⟩
  have h₁ : s.enqueued = s.delivered := by
    rw [hq, List.append_nil] at hinv₁
    exact hinv₁
  have h₂ : s.enqueued.Perm es := by
    rw [hp] at hinv₂
    simpa using hinv₂
  rwa [h₁] at h₂

/-- The first of two racing responses. -/
def aW : AuthEvent := some ⟨"tokA"⟩

/-- The second of two racing responses. -/
def bW : AuthEvent := some ⟨"tokB"⟩

/-- The state reached from two pending responses after one send and one
delivery: one delivered, one still pending, buffer empty. -/
def s2W : DispatchState := ⟨[bW], [], [aW], [aW]⟩

/-- C6 witness: the dispatch invariants at the concrete mid-execution
state reached by an explicit send step followed by a delivery step. -/
theorem C6_concurrent_delivery_witness :
    ((s2W.pending ≠ [] ∨ s2W.queue ≠ []) → ∃ t, DStep s2W t) ∧
    (∀ t, DStep s2W t → t.measure < s2W.measure) ∧
    s2W.enqueued = s2W.delivered ++ s2W.queue ∧
    (s2W.pending = [] → s2W.queue = [] → s2W.delivered.Perm [aW, bW]) :=
  C6_concurrent_delivery [aW, bW] s2W
    (DReach.tail
      (DReach.tail (DReach.refl _)
        (DStep.enq [aW, bW] [] [] [] ⟨0, by decide⟩ (by decide)))
      (DStep.disp [bW] [] [aW] [] aW))

end Slackauth
